import Mathlib

/-!
Verification of the network-automation scripts (`scripts/config_backup.py` and
`scripts/ping_ips.py`) against their specification.

The Python code is shallowly embedded: YAML documents become the inductive
type `Yaml`, Python exceptions become `PyExc`, fallible computations return
`Except PyExc _`, and the external world of one device session (Netmiko
connect / enable / send_command outcomes, `datetime.now()` values, file-write
outcomes) is an explicit `SessionEnv` record.  The side effects of one backup
attempt are recorded as an explicit event trace (`Event`), so that properties
about which parameters reach the connection call, which commands are issued,
and which files are written can be stated directly.
-/

/-- A YAML value as produced by `yaml.safe_load`.  Mapping keys are modelled
as strings (the inventory files use string keys throughout). -/
inductive Yaml where
  | null
  | bool (b : Bool)
  | int (n : Int)
  | str (s : String)
  | list (xs : List Yaml)
  | map (kvs : List (String × Yaml))

/-- Python exceptions relevant to the scripts.  `NetmikoTimeoutException`,
`NetmikoAuthenticationException` and `NetmikoBaseException` are the Netmiko
classes named in the source; every constructor below corresponds to a
subclass of Python's `Exception`, hence all are caught by a bare
`except Exception`. -/
inductive PyExc where
  | keyError (k : String)
  | typeError (msg : String)
  | netmikoTimeout
  | netmikoAuth
  | netmikoBase (msg : String)
  | otherError (msg : String)
  deriving DecidableEq, Repr

/-- Python subscript `d[k]` on a YAML value: succeeds only on a mapping that
holds the key; a mapping without the key raises `KeyError`, any non-mapping
raises `TypeError`. -/
def yamlIndex (v : Yaml) (k : String) : Except PyExc Yaml :=
  match v with
  | .map kvs =>
      match kvs.lookup k with
      | some w => .ok w
      | none => .error (.keyError k)
  | _ => .error (.typeError "value is not subscriptable by string")

/-- Python `dict.get(k, default)`. -/
def dictGet (kvs : List (String × Yaml)) (k : String) (default : Yaml) : Yaml :=
  match kvs.lookup k with
  | some w => w
  | none => default

mutual

/-- Python `str()` of a YAML value (`f-string` interpolation).  Container
elements are rendered with this same function; Python would quote nested
strings via `repr`, an inessential difference for the properties below,
where interpolated values are plain strings. -/
def pyStr : Yaml → String
  | .null => "None"
  | .bool b => cond b "True" "False"
  | .int n => toString n
  | .str s => s
  | .list xs => "[" ++ pyStrList xs ++ "]"
  | .map kvs => "\x7b" ++ pyStrMap kvs ++ "\x7d"

/-- Comma-separated rendering of a list of YAML values. -/
def pyStrList : List Yaml → String
  | [] => ""
  | [x] => pyStr x
  | x :: xs => pyStr x ++ ", " ++ pyStrList xs

/-- Comma-separated rendering of the entries of a YAML mapping. -/
def pyStrMap : List (String × Yaml) → String
  | [] => ""
  | [(k, v)] => k ++ ": " ++ pyStr v
  | (k, v) :: kvs => k ++ ": " ++ pyStr v ++ ", " ++ pyStrMap kvs

end

/-- Outcome of opening and parsing the inventory file, before
`loadDevices`'s exception handling is applied. -/
inductive FileResult where
  | notFound
  | ioError
  | parseError
  | parsed (doc : Yaml)

/-- `loadDevices` from `scripts/config_backup.py`.  On success it returns
`devices_data.get("devices", [])`; `FileNotFoundError`, `yaml.YAMLError` and
any other exception (in particular the `AttributeError` raised by `.get` on
a non-mapping document) all return Python `None`, modelled as `Yaml.null`
(which is also what a literal `devices: null` entry yields — in Python both
are the same `None` object). -/
def loadDevices : FileResult → Yaml
  | .notFound => .null
  | .ioError => .null
  | .parseError => .null
  | .parsed (.map kvs) => dictGet kvs "devices" (.list [])
  | .parsed _ => .null

/-- A wall-clock timestamp as consumed by `strftime`. -/
structure DateTime where
  year : Nat
  month : Nat
  day : Nat
  hour : Nat
  minute : Nat
  second : Nat
  deriving DecidableEq, Repr

/-- The decimal digit character for `n % 10` style values. -/
def digitChar (n : Nat) : Char := Char.ofNat (48 + n)

/-- Two zero-padded decimal digits, as `%m %d %H %M %S` produce for
in-range values. -/
def digits2 (n : Nat) : List Char := [digitChar (n / 10), digitChar (n % 10)]

/-- Four zero-padded decimal digits, as `%Y` produces for years up to 9999. -/
def digits4 (n : Nat) : List Char :=
  [digitChar (n / 1000), digitChar (n / 100 % 10), digitChar (n / 10 % 10),
   digitChar (n % 10)]

/-- `datetime.strftime("%Y%m%d-%H%M%S")`. -/
def formatTimestamp (t : DateTime) : String :=
  ⟨digits4 t.year ++ digits2 t.month ++ digits2 t.day ++ ['-'] ++
   digits2 t.hour ++ digits2 t.minute ++ digits2 t.second⟩

/-- The ranges `datetime.datetime.now()` guarantees for its fields. -/
def validTime (t : DateTime) : Prop :=
  1 ≤ t.year ∧ t.year ≤ 9999 ∧ 1 ≤ t.month ∧ t.month ≤ 12 ∧
  1 ≤ t.day ∧ t.day ≤ 31 ∧ t.hour ≤ 23 ∧ t.minute ≤ 59 ∧ t.second ≤ 59

/-- Whether a path string is absolute (`startswith("/")`). -/
def isAbs (s : String) : Bool :=
  match s.data with
  | [] => false
  | c :: _ => c = '/'

/-- Whether a path string ends with the separator. -/
def endsWithSlash (s : String) : Bool :=
  match s.data.getLast? with
  | some c => c = '/'
  | none => false

/-- `os.path.join(dir, f)` for a two-component POSIX join: an absolute
second component replaces the first; otherwise a separator is inserted
unless the first component is empty or already ends with one. -/
def pathJoin (dir f : String) : String :=
  if isAbs f then f
  else if dir = "" then f
  else if endsWithSlash dir then dir ++ f
  else dir ++ "/" ++ f

/-- The global `ENABLE_SESSION_LOGGING` flag of `scripts/config_backup.py`. -/
def ENABLE_SESSION_LOGGING : Bool := true

/-- Observable side effects of one backup attempt. -/
inductive Event where
  | connectAttempt (params : List (String × Yaml))
  | enableAttempt
  | commandSent (cmd : String)
  | fileWritten (path : String) (content : String)
  | sessionClosed

/-- External-world behaviour of one device attempt: the two `datetime.now()`
values sampled by `backup_config`, and whether each interaction raises.
`none` / `Except.ok` means the call returns normally. -/
structure SessionEnv where
  sessionTime : DateTime
  connect : Option PyExc
  enable : Option PyExc
  send : Except PyExc String
  backupTime : DateTime
  write : Option PyExc

/-- The artifact path `os.path.join(backup_dir, f"{name}-{timestamp}.config")`. -/
def backupFilePath (backup_dir name : String) (t : DateTime) : String :=
  pathJoin backup_dir (name ++ "-" ++ formatTimestamp t ++ ".config")

/-- The session-log path computation at the top of `backup_config`: when
session logging is enabled it reads `device['name']` (outside any
`try`, so a missing key raises out of the function). -/
def sessionLogPath (esl : Bool) (device : Yaml) (env : SessionEnv) :
    Except PyExc (Option String) :=
  if esl then
    match yamlIndex device "name" with
    | .error e => .error e
    | .ok nm =>
        .ok (some (pathJoin "debug_logs/sessions"
          (pyStr nm ++ "-" ++ formatTimestamp env.sessionTime ++ "_session.log")))
  else .ok none

/-- The `netmiko_device_params` dictionary literal of `backup_config`,
built outside the `try` block: exactly `host`, `username`, `password`,
`device_type` (each a bare subscript that raises `KeyError` when absent),
plus `session_log` when a session-log path was computed.  The `secret`
entry in the source is commented out. -/
def buildParams (device : Yaml) (slp : Option String) :
    Except PyExc (List (String × Yaml)) :=
  match yamlIndex device "host" with
  | .error e => .error e
  | .ok h =>
    match yamlIndex device "username" with
    | .error e => .error e
    | .ok u =>
      match yamlIndex device "password" with
      | .error e => .error e
      | .ok p =>
        match yamlIndex device "device_type" with
        | .error e => .error e
        | .ok dt =>
          let base := [("host", h), ("username", u), ("password", p),
                       ("device_type", dt)]
          .ok (match slp with
               | some path => base ++ [("session_log", Yaml.str path)]
               | none => base)

/-- The `try` block of `backup_config`.  Every exception raised inside it —
the two f-string subscripts of the opening `logging.info`, the
`ConnectHandler` call, `enable()`, `send_command`, and the artifact write —
is caught by one of the four `except` clauses (all model `Exception`
subclasses), so the block always returns a `Bool`.  The `with` statement
closes the session on every exit path after a successful connect. -/
def runTry (device : Yaml) (backup_dir : String)
    (params : List (String × Yaml)) (env : SessionEnv) : Bool × List Event :=
  match yamlIndex device "name" with
  | .error _ => (false, [])
  | .ok nm =>
    match yamlIndex device "host" with
    | .error _ => (false, [])
    | .ok _ =>
      match env.connect with
      | some _ => (false, [.connectAttempt params])
      | none =>
        match env.enable with
        | some _ => (false, [.connectAttempt params, .enableAttempt, .sessionClosed])
        | none =>
          match env.send with
          | .error _ =>
              (false, [.connectAttempt params, .enableAttempt,
                       .commandSent "show running-config", .sessionClosed])
          | .ok config =>
            let backup_file := backupFilePath backup_dir (pyStr nm) env.backupTime
            match env.write with
            | some _ =>
                (false, [.connectAttempt params, .enableAttempt,
                         .commandSent "show running-config", .sessionClosed])
            | none =>
                (true, [.connectAttempt params, .enableAttempt,
                        .commandSent "show running-config",
                        .fileWritten backup_file config, .sessionClosed])

/-- `backup_config(device, backup_dir)`: the session-log path and parameter
dictionary are built before the `try` block, so their exceptions propagate
(`Except.error`); the `try` block itself always yields `Except.ok` with the
function's Boolean return value. -/
def backup_config (esl : Bool) (device : Yaml) (backup_dir : String)
    (env : SessionEnv) : Except PyExc Bool × List Event :=
  match sessionLogPath esl device env with
  | .error e => (.error e, [])
  | .ok slp =>
    match buildParams device slp with
    | .error e => (.error e, [])
    | .ok params =>
      let r := runTry device backup_dir params env
      (.ok r.1, r.2)

/-- Python iteration `for device in devices`: lists yield their elements,
strings their characters, mappings their keys; other values raise
`TypeError`. -/
def pyIter : Yaml → Except PyExc (List Yaml)
  | .list xs => .ok xs
  | .str s => .ok (s.data.map fun c => .str ⟨[c]⟩)
  | .map kvs => .ok (kvs.map fun kv => .str kv.1)
  | _ => .error (.typeError "object is not iterable")

/-- The device loop of `main`: one `backup_config` call per record, in
order; a failed attempt additionally interpolates `device['name']` into the
warning line.  An exception from either step is uncaught and ends the
loop (and the process). -/
def mainLoop (esl : Bool) (backup_dir : String) (envs : Nat → SessionEnv) :
    List Yaml → Except PyExc Unit × List (Yaml × Bool) × List Event
  | [] => (.ok (), [], [])
  | d :: ds =>
    match backup_config esl d backup_dir (envs 0) with
    | (.error e, evs) => (.error e, [], evs)
    | (.ok b, evs) =>
      match (if b then Except.ok () else (yamlIndex d "name").map fun _ => ()) with
      | .error e => (.error e, [(d, b)], evs)
      | .ok _ =>
        match mainLoop esl backup_dir (fun i => envs (i + 1)) ds with
        | (r, rs, evs2) => (r, (d, b) :: rs, evs ++ evs2)

/-- `Yaml.null` recogniser (`devices is None`). -/
def isNull : Yaml → Bool
  | .null => true
  | _ => false

/-- `Yaml.map` recogniser. -/
def isMap : Yaml → Bool
  | .map _ => true
  | _ => false

/-- Outcome of one run of `main` from `scripts/config_backup.py`:
`exit = Except.ok n` is a normal termination with process exit code `n`
(falling off the end of `main` is code 0, `sys.exit(1)` is code 1);
`exit = Except.error e` is an unhandled exception terminating the process
abnormally.  `results` pairs each device record whose attempt ran to
completion with its Boolean outcome, in inventory order. -/
structure MainResult where
  exit : Except PyExc Nat
  results : List (Yaml × Bool)
  events : List Event

/-- The tail of `main()` once a device list is in hand: run the loop; an
uncaught exception terminates the process abnormally, otherwise `main`
falls off its end and the process exits 0. -/
def runDevices (esl : Bool) (backup_dir : String) (envs : Nat → SessionEnv)
    (ds : List Yaml) : MainResult :=
  match mainLoop esl backup_dir envs ds with
  | (.error e, rs, evs) => ⟨.error e, rs, evs⟩
  | (.ok _, rs, evs) => ⟨.ok 0, rs, evs⟩

/-- `main()` of `scripts/config_backup.py`, after argument parsing: load
the inventory, `sys.exit(1)` when the loader returned `None`, otherwise
iterate the loaded value running one backup per record. -/
def main' (esl : Bool) (file : FileResult) (backup_dir : String)
    (envs : Nat → SessionEnv) : MainResult :=
  let devices := loadDevices file
  if isNull devices then ⟨.ok 1, [], []⟩
  else
    match pyIter devices with
    | .error e => ⟨.error e, [], []⟩
    | .ok ds => runDevices esl backup_dir envs ds

/-- A device record holding every key `backup_config` subscripts. -/
def wellFormed (d : Yaml) : Bool :=
  (yamlIndex d "name").isOk && (yamlIndex d "host").isOk &&
  (yamlIndex d "username").isOk && (yamlIndex d "password").isOk &&
  (yamlIndex d "device_type").isOk

/-- First `connectAttempt` parameter set in a trace. -/
def connectParamsOf : List Event → Option (List (String × Yaml))
  | [] => none
  | .connectAttempt ps :: _ => some ps
  | _ :: evs => connectParamsOf evs

/-- One `subprocess.run` invocation as the source constructs it: the argv
list, the `timeout` keyword (absent in the source, hence `none`), and the
`check` keyword. -/
structure SubprocessCall where
  argv : List String
  timeLimit : Option Nat
  check : Bool
  deriving DecidableEq, Repr

/-- The call `subprocess.run(["ping", "-c", "1", host], ..., check=True)`
from `ping_host` in `scripts/ping_ips.py`; no `timeout` keyword is passed. -/
def pingCall (host : String) : SubprocessCall :=
  { argv := ["ping", "-c", "1", host], timeLimit := none, check := true }

/-- How the external process invocation terminates. -/
inductive RunOutcome where
  | exits (code : Nat)
  | procError
  deriving DecidableEq, Repr

/-- Semantics of `subprocess.run` for a call description: with
`check=True` a non-zero exit status raises `CalledProcessError`; a failure
to run the process at all raises an `OSError`-style exception. -/
def subprocessRun (c : SubprocessCall) (r : RunOutcome) : Except PyExc Nat :=
  match r with
  | .exits 0 => .ok 0
  | .exits (n + 1) =>
      if c.check then .error (.otherError "CalledProcessError") else .ok (n + 1)
  | .procError => .error (.otherError "OSError")

/-- `ping_host(host)` from `scripts/ping_ips.py`: run the ping command and
return `True`; `except subprocess.CalledProcessError` and
`except Exception` both return `False`. -/
def ping_host (host : String) (r : RunOutcome) : Bool :=
  match subprocessRun (pingCall host) r with
  | .ok _ => true
  | .error _ => false

/-- One `add_argument` entry of an argparse parser: its flag strings
(a positional argument has a single name not starting with a dash),
whether it is required, and whether it is a `store_true` switch. -/
structure ArgSpec where
  flags : List String
  required : Bool
  storeTrue : Bool
  deriving DecidableEq, Repr

/-- Whether a string starts with the given character. -/
def isAbsChar (c : Char) (s : String) : Bool :=
  match s.data with
  | [] => false
  | x :: _ => x = c

/-- An argument is positional when none of its names is a dashed option. -/
def isPositional (a : ArgSpec) : Bool :=
  a.flags.all fun f => !(isAbsChar '-' f)

/-- The argparse surface of `scripts/ping_ips.py`: exactly two dashed
options, `-f` and `--file` with `required=True` and the `-v` and `--verbose` switch;
no positional argument is declared. -/
def pingCli : List ArgSpec :=
  [{ flags := ["-f", "--file"], required := true, storeTrue := false },
   { flags := ["-v", "--verbose"], required := false, storeTrue := true }]

/-- An argparse invocation fails (the process exits with a usage error)
whenever some required option appears under none of its flag strings.
Abbreviated or `--opt=value` spellings are not modelled; the property is
used only on argv lists mentioning no spelling of the option at all. -/
def parseFails (spec : List ArgSpec) (argv : List String) : Bool :=
  spec.any fun a => a.required && a.flags.all fun f => !(argv.contains f)

/-- A fixed sample timestamp. -/
def t0 : DateTime := ⟨2024, 1, 2, 3, 4, 5⟩

/-- A session environment in which every external interaction succeeds. -/
def env0 : SessionEnv :=
  { sessionTime := t0, connect := none, enable := none,
    send := .ok "interface Gi0/1", backupTime := t0, write := none }

/-- A session environment in which the connection opens but `enable()`
raises (Netmiko's `enable` raises a `ValueError` when it cannot reach the
privileged prompt). -/
def envEnableFail : SessionEnv :=
  { sessionTime := t0, connect := none, enable := some (.otherError "enable"),
    send := .ok "interface Gi0/1", backupTime := t0, write := none }

/-- All devices get the all-succeeding environment. -/
def envs0 : Nat → SessionEnv := fun _ => env0

/-- A fully-populated inventory record that also carries a `secret`. -/
def devSecret : Yaml :=
  .map [("name", .str "r1"), ("host", .str "10.0.0.1"),
        ("username", .str "admin"), ("password", .str "pw"),
        ("device_type", .str "cisco_ios"), ("secret", .str "enablepw")]

/-- An inventory record missing the mandatory `host` key. -/
def devNoHost : Yaml := .map [("name", .str "r1")]

/-! ### Helper lemmas -/

lemma except_isOk (e : Except PyExc Yaml) (h : e.isOk = true) : ∃ v, e = .ok v := by
  cases e <;> simp_all [Except.isOk, Except.toBool]

lemma wellFormed_keys {d : Yaml} (h : wellFormed d = true) :
    (∃ v, yamlIndex d "name" = .ok v) ∧ (∃ v, yamlIndex d "host" = .ok v) ∧
    (∃ v, yamlIndex d "username" = .ok v) ∧ (∃ v, yamlIndex d "password" = .ok v) ∧
    (∃ v, yamlIndex d "device_type" = .ok v) := by
  simp only [wellFormed, Bool.and_eq_true] at h
  obtain ⟨⟨⟨⟨h1, h2⟩, h3⟩, h4⟩, h5⟩ := h
  exact ⟨except_isOk _ h1, except_isOk _ h2, except_isOk _ h3,
         except_isOk _ h4, except_isOk _ h5⟩

lemma backup_config_isOk (esl : Bool) (d : Yaml) (bdir : String) (env : SessionEnv)
    (h : wellFormed d = true) :
    ∃ b, (backup_config esl d bdir env).1 = Except.ok b := by
  obtain ⟨⟨nv, hn⟩, ⟨hv, hh⟩, ⟨uv, hu⟩, ⟨pv, hp⟩, ⟨dv, hd⟩⟩ := wellFormed_keys h
  cases esl <;>
    simp [backup_config, sessionLogPath, buildParams, hn, hh, hu, hp, hd]

lemma mainLoop_wf (esl : Bool) (bdir : String) (ds : List Yaml) :
    ∀ envs : Nat → SessionEnv, (∀ d ∈ ds, wellFormed d = true) →
      (mainLoop esl bdir envs ds).1 = Except.ok () ∧
      (mainLoop esl bdir envs ds).2.1.map Prod.fst = ds := by
  induction ds with
  | nil => intro envs _; simp [mainLoop]
  | cons d ds ih =>
    intro envs h
    have hd : wellFormed d = true := h d (by simp)
    obtain ⟨b, hb⟩ := backup_config_isOk esl d bdir (envs 0) hd
    obtain ⟨⟨nv, hn⟩, -⟩ := wellFormed_keys hd
    rcases hP : backup_config esl d bdir (envs 0) with ⟨r1, evs⟩
    rw [hP] at hb
    simp only at hb
    subst hb
    have ih' := ih (fun i => envs (i + 1)) (fun d' hd' => h d' (by simp [hd']))
    rcases hQ : mainLoop esl bdir (fun i => envs (i + 1)) ds with ⟨q1, qrs, qevs⟩
    rw [hQ] at ih'
    obtain ⟨hq1, hq2⟩ := ih'
    simp only at hq2
    subst hq1
    cases b <;> simp [mainLoop, hP, hQ, hn, hq2, Except.map]

lemma runDevices_wf (esl : Bool) (bdir : String) (envs : Nat → SessionEnv)
    (ds : List Yaml) (h : ∀ d ∈ ds, wellFormed d = true) :
    (runDevices esl bdir envs ds).exit = Except.ok 0 ∧
    (runDevices esl bdir envs ds).results.map Prod.fst = ds := by
  obtain ⟨h1, h2⟩ := mainLoop_wf esl bdir ds envs h
  rcases hQ : mainLoop esl bdir envs ds with ⟨q1, qrs, qevs⟩
  rw [hQ] at h1 h2
  subst h1
  simpa [runDevices, hQ] using h2

lemma runDevices_exit_ne_one (esl : Bool) (bdir : String) (envs : Nat → SessionEnv)
    (ds : List Yaml) : (runDevices esl bdir envs ds).exit ≠ Except.ok 1 := by
  unfold runDevices
  rcases hQ : mainLoop esl bdir envs ds with ⟨q1, qrs, qevs⟩
  cases q1 <;> simp

lemma main'_wf (esl : Bool) (file : FileResult) (bdir : String)
    (envs : Nat → SessionEnv) (ds : List Yaml)
    (hload : loadDevices file = .list ds) (h : ∀ d ∈ ds, wellFormed d = true) :
    (main' esl file bdir envs).exit = Except.ok 0 ∧
    (main' esl file bdir envs).results.map Prod.fst = ds := by
  obtain ⟨h1, h2⟩ := runDevices_wf esl bdir envs ds h
  simp [main', hload, isNull, pyIter, h1, h2]

lemma main'_exit_one_iff (esl : Bool) (file : FileResult) (bdir : String)
    (envs : Nat → SessionEnv) :
    (main' esl file bdir envs).exit = Except.ok 1 ↔ loadDevices file = .null := by
  cases hld : loadDevices file <;>
    simp [main', hld, isNull, pyIter, runDevices_exit_ne_one]

lemma string_data_inj {s t : String} (h : s.data = t.data) : s = t := by
  cases s; cases t; exact congrArg String.mk h

lemma digitChar_inj {a b : Nat} (ha : a < 10) (hb : b < 10)
    (h : digitChar a = digitChar b) : a = b := by
  unfold digitChar at h
  interval_cases a <;> interval_cases b <;> simp_all

lemma digits2_inj {a b : Nat} (ha : a < 100) (hb : b < 100)
    (h : digits2 a = digits2 b) : a = b := by
  simp only [digits2, List.cons.injEq, and_true] at h
  obtain ⟨h1, h2⟩ := h
  have e1 := digitChar_inj (by omega) (by omega) h1
  have e2 := digitChar_inj (by omega) (by omega) h2
  omega

lemma digits4_inj {a b : Nat} (ha : a < 10000) (hb : b < 10000)
    (h : digits4 a = digits4 b) : a = b := by
  simp only [digits4, List.cons.injEq, and_true] at h
  obtain ⟨h1, h2, h3, h4⟩ := h
  have e1 := digitChar_inj (by omega) (by omega) h1
  have e2 := digitChar_inj (by omega) (by omega) h2
  have e3 := digitChar_inj (by omega) (by omega) h3
  have e4 := digitChar_inj (by omega) (by omega) h4
  omega

lemma formatTimestamp_inj {t1 t2 : DateTime} (h1 : validTime t1) (h2 : validTime t2)
    (h : formatTimestamp t1 = formatTimestamp t2) : t1 = t2 := by
  obtain ⟨y1, mo1, d1, ho1, mi1, se1⟩ := t1
  obtain ⟨y2, mo2, d2, ho2, mi2, se2⟩ := t2
  obtain ⟨hy1a, hy1b, hmo1a, hmo1b, hd1a, hd1b, hho1, hmi1, hse1⟩ := h1
  obtain ⟨hy2a, hy2b, hmo2a, hmo2b, hd2a, hd2b, hho2, hmi2, hse2⟩ := h2
  simp only at hy1b hmo1b hd1b hho1 hmi1 hse1 hy2b hmo2b hd2b hho2 hmi2 hse2
  have hl := congrArg String.data h
  simp only [formatTimestamp, digits4, digits2, List.cons_append, List.nil_append,
    List.cons.injEq, and_true] at hl
  obtain ⟨e1, e2, e3, e4, e5, e6, e7, e8, -, e9, e10, e11, e12, e13, e14⟩ := hl
  simp only [DateTime.mk.injEq]
  refine ⟨digits4_inj (by omega) (by omega) ?_, digits2_inj (by omega) (by omega) ?_,
          digits2_inj (by omega) (by omega) ?_, digits2_inj (by omega) (by omega) ?_,
          digits2_inj (by omega) (by omega) ?_, digits2_inj (by omega) (by omega) ?_⟩ <;>
    simp only [digits4, digits2, List.cons.injEq, and_true] <;> tauto

lemma isAbs_append (p q : String) (hp : p.data ≠ []) : isAbs (p ++ q) = isAbs p := by
  unfold isAbs
  rw [String.data_append]
  cases hd : p.data with
  | nil => exact absurd hd hp
  | cons c cs => simp

lemma append_dash_ne_nil (nm : String) : (nm ++ "-").data ≠ [] := by
  rw [String.data_append]
  simp

lemma isAbs_append_dash (nm : String) (hnm : isAbs nm = false) :
    isAbs (nm ++ "-") = false := by
  unfold isAbs at hnm ⊢
  rw [String.data_append]
  cases hd : nm.data with
  | nil => simp
  | cons c cs =>
    rw [hd] at hnm
    simpa using hnm

lemma configName_not_abs (nm : String) (hnm : isAbs nm = false) (t : DateTime) :
    isAbs (nm ++ "-" ++ formatTimestamp t ++ ".config") = false := by
  have hne : ((nm ++ "-") ++ formatTimestamp t).data ≠ [] := by
    rw [String.data_append]
    intro hc
    exact append_dash_ne_nil nm (List.append_eq_nil.mp hc).1
  rw [isAbs_append _ _ hne, isAbs_append _ _ (append_dash_ne_nil nm)]
  exact isAbs_append_dash nm hnm

lemma backupFilePath_ne (bdir nm : String) (hb1 : bdir ≠ "")
    (hb2 : endsWithSlash bdir = false) (hnm : isAbs nm = false)
    {t1 t2 : DateTime} (h1 : validTime t1) (h2 : validTime t2) (hne : t1 ≠ t2) :
    backupFilePath bdir nm t1 ≠ backupFilePath bdir nm t2 := by
  intro hEq
  apply hne
  apply formatTimestamp_inj h1 h2
  unfold backupFilePath pathJoin at hEq
  rw [configName_not_abs nm hnm t1, configName_not_abs nm hnm t2] at hEq
  simp only [Bool.false_eq_true, if_false, hb1, hb2, if_neg] at hEq
  have hD := congrArg String.data hEq
  simp only [String.data_append, List.append_assoc] at hD
  have hD1 := List.append_cancel_left hD
  have hD2 := List.append_cancel_left hD1
  have hD3 := List.append_cancel_left hD2
  have hD4 := List.append_cancel_left hD3
  exact string_data_inj (List.append_cancel_right hD4)

lemma backup_config_errEnv (esl : Bool) (d : Yaml) (bdir : String)
    (env : SessionEnv) (h : wellFormed d = true)
    (herr : env.connect.isSome ∨ env.enable.isSome ∨
      (∃ e, env.send = Except.error e) ∨ env.write.isSome) :
    (backup_config esl d bdir env).1 = Except.ok false := by
  obtain ⟨⟨nv, hn⟩, ⟨hv, hh⟩, ⟨uv, hu⟩, ⟨pv, hp⟩, ⟨dv, hd⟩⟩ := wellFormed_keys h
  cases esl <;>
    rcases hc : env.connect with _ | e1 <;>
    rcases he : env.enable with _ | e2 <;>
    rcases hs : env.send with e3 | cfg <;>
    rcases hw : env.write with _ | e4 <;>
    simp_all [backup_config, sessionLogPath, buildParams, runTry,
              hn, hh, hu, hp, hd]

/-! ### Claim theorems -/

/-- C6: for every inventory document that parses to a mapping with no
top-level `devices` key, the loader returns an empty sequence rather than
an error, and a run over it makes zero backup attempts and exits normally
with code 0. -/
theorem claim6_absent_devices_key (kvs : List (String × Yaml))
    (h : kvs.lookup "devices" = none) (bdir : String) (envs : Nat → SessionEnv) :
    loadDevices (.parsed (.map kvs)) = .list [] ∧
    (main' ENABLE_SESSION_LOGGING (.parsed (.map kvs)) bdir envs).results = [] ∧
    (main' ENABLE_SESSION_LOGGING (.parsed (.map kvs)) bdir envs).exit = Except.ok 0 := by
  have hl : loadDevices (.parsed (.map kvs)) = .list [] := by
    simp [loadDevices, dictGet, h]
  refine ⟨hl, ?_, ?_⟩ <;> simp [main', hl, isNull, pyIter, runDevices, mainLoop]

/-- C6 witness: a concrete mapping without the `devices` key. -/
theorem claim6_witness :
    loadDevices (.parsed (.map [("other", Yaml.int 1)])) = .list [] ∧
    (main' ENABLE_SESSION_LOGGING (.parsed (.map [("other", Yaml.int 1)])) "backups" envs0).results = [] ∧
    (main' ENABLE_SESSION_LOGGING (.parsed (.map [("other", Yaml.int 1)])) "backups" envs0).exit = Except.ok 0 :=
  claim6_absent_devices_key [("other", Yaml.int 1)] rfl "backups" envs0

/-- C10: a document that parses successfully but whose top level is not a
mapping (for example an empty file, which parses to `None`) is a fatal load
failure: the loader returns the error sentinel and the run exits with code
1 having attempted no device. -/
theorem claim10_non_mapping_fatal (doc : Yaml) (h : isMap doc = false)
    (bdir : String) (envs : Nat → SessionEnv) :
    loadDevices (.parsed doc) = .null ∧
    (main' ENABLE_SESSION_LOGGING (.parsed doc) bdir envs).exit = Except.ok 1 ∧
    (main' ENABLE_SESSION_LOGGING (.parsed doc) bdir envs).results = [] := by
  have hl : loadDevices (.parsed doc) = .null := by
    cases doc <;> simp_all [loadDevices, isMap]
  refine ⟨hl, ?_, ?_⟩ <;> simp [main', hl, isNull]

/-- C10 witness: the empty document (`yaml.safe_load` returns `None`). -/
theorem claim10_witness :
    loadDevices (.parsed .null) = .null ∧
    (main' ENABLE_SESSION_LOGGING (.parsed .null) "backups" envs0).exit = Except.ok 1 ∧
    (main' ENABLE_SESSION_LOGGING (.parsed .null) "backups" envs0).results = [] :=
  claim10_non_mapping_fatal .null rfl "backups" envs0

/-- C5 counterexample: with the inventory loaded successfully (two records,
the first fully valid and succeeding), a second record missing its `host`
key makes the run terminate on an unhandled `KeyError` — the process does
not exit with code 0 even though the inventory loaded, refuting the claimed
equivalence. -/
theorem claim5_counterexample :
    loadDevices (.parsed (.map [("devices", .list [devSecret, devNoHost])])) =
      .list [devSecret, devNoHost] ∧
    (main' ENABLE_SESSION_LOGGING
        (.parsed (.map [("devices", .list [devSecret, devNoHost])])) "backups" envs0).exit =
      Except.error (.keyError "host") ∧
    (main' ENABLE_SESSION_LOGGING
        (.parsed (.map [("devices", .list [devSecret, devNoHost])])) "backups" envs0).results =
      [(devSecret, true)] := by
  exact ⟨rfl, rfl, rfl⟩

/-- C5 (amended): `sys.exit(1)` is reached exactly when the loader returns
the error sentinel; when the inventory loads and every record carries the
mandatory keys, the run exits normally with code 0 no matter how many
per-device attempts fail.  A loaded record missing a mandatory key instead
terminates the process on an unhandled exception. -/
theorem claim5_amended_exit_codes :
    (∀ (file : FileResult) (bdir : String) (envs : Nat → SessionEnv),
      (main' ENABLE_SESSION_LOGGING file bdir envs).exit = Except.ok 1 ↔
        loadDevices file = .null) ∧
    (∀ (file : FileResult) (bdir : String) (envs : Nat → SessionEnv) (ds : List Yaml),
      loadDevices file = .list ds → (∀ d ∈ ds, wellFormed d = true) →
      (main' ENABLE_SESSION_LOGGING file bdir envs).exit = Except.ok 0) :=
  ⟨fun file bdir envs => main'_exit_one_iff _ file bdir envs,
   fun file bdir envs ds hl hw => (main'_wf _ file bdir envs ds hl hw).1⟩

/-- C5 witness: a missing inventory file exits 1; a loaded inventory of one
well-formed device exits 0. -/
theorem claim5_witness :
    (main' ENABLE_SESSION_LOGGING .notFound "backups" envs0).exit = Except.ok 1 ∧
    (main' ENABLE_SESSION_LOGGING (.parsed (.map [("devices", .list [devSecret])]))
        "backups" envs0).exit = Except.ok 0 :=
  ⟨(claim5_amended_exit_codes.1 .notFound "backups" envs0).mpr rfl,
   claim5_amended_exit_codes.2 _ "backups" envs0 [devSecret] rfl
     (by intro d hd; rw [List.mem_singleton] at hd; subst hd; rfl)⟩

/-- C4 counterexample: an inventory of two loaded records whose first lacks
the `host` key produces zero completed backup attempts, not two — the
uncaught `KeyError` aborts the batch before the second record is reached. -/
theorem claim4_counterexample :
    loadDevices (.parsed (.map [("devices", .list [devNoHost, devSecret])])) =
      .list [devNoHost, devSecret] ∧
    (main' ENABLE_SESSION_LOGGING
        (.parsed (.map [("devices", .list [devNoHost, devSecret])])) "backups" envs0).results =
      [] := by
  exact ⟨rfl, rfl⟩

/-- C4 (amended): when every loaded record carries the mandatory keys,
exactly one backup attempt outcome is produced per record (duplicates
included), in inventory order — the produced outcome list projects back to
the inventory itself, so no record is skipped or retried. -/
theorem claim4_amended_completeness (file : FileResult) (bdir : String)
    (envs : Nat → SessionEnv) (ds : List Yaml)
    (hl : loadDevices file = .list ds) (hw : ∀ d ∈ ds, wellFormed d = true) :
    (main' ENABLE_SESSION_LOGGING file bdir envs).results.map Prod.fst = ds ∧
    (main' ENABLE_SESSION_LOGGING file bdir envs).results.length = ds.length := by
  have h := (main'_wf ENABLE_SESSION_LOGGING file bdir envs ds hl hw).2
  exact ⟨h, by rw [← h, List.length_map]⟩

/-- C4 witness: a duplicated well-formed record yields two outcomes in
order. -/
theorem claim4_witness :
    (main' ENABLE_SESSION_LOGGING (.parsed (.map [("devices", .list [devSecret, devSecret])]))
        "backups" envs0).results.map Prod.fst = [devSecret, devSecret] ∧
    (main' ENABLE_SESSION_LOGGING (.parsed (.map [("devices", .list [devSecret, devSecret])]))
        "backups" envs0).results.length = ([devSecret, devSecret] : List Yaml).length :=
  claim4_amended_completeness _ "backups" envs0 [devSecret, devSecret] rfl
    (by intro d hd; simp only [List.mem_cons, List.not_mem_nil, or_false] at hd
        rcases hd with h | h <;> (subst h; rfl))

/-- C1 counterexample: a loaded record with no `host` key raises a
`KeyError` while `backup_config` builds the connection parameters (outside
its `try` block); the exception crosses the per-device boundary and aborts
the batch. -/
theorem claim1_counterexample :
    (backup_config ENABLE_SESSION_LOGGING devNoHost "backups" env0).1 =
      Except.error (.keyError "host") ∧
    (main' ENABLE_SESSION_LOGGING (.parsed (.map [("devices", .list [devNoHost])]))
        "backups" envs0).exit = Except.error (.keyError "host") := by
  exact ⟨rfl, rfl⟩

/-- C1 (amended): for every loaded record that carries the mandatory keys
(`name`, `host`, `username`, `password`, `device_type`), every error
arising during the device's attempt — a raising connect, elevate, command
or artifact write — is caught inside `backup_config` and converted into the
failed per-device outcome `False` (never raised onward, never reported as a
success), `backup_config` always returns a Boolean outcome for such
records, and a loop over such records always runs to completion; but a
record missing a mandatory key raises out of the per-device boundary. -/
theorem claim1_amended_no_propagation :
    (∀ (d : Yaml) (bdir : String) (env : SessionEnv), wellFormed d = true →
      (env.connect.isSome ∨ env.enable.isSome ∨
        (∃ e, env.send = Except.error e) ∨ env.write.isSome) →
      (backup_config ENABLE_SESSION_LOGGING d bdir env).1 = Except.ok false) ∧
    (∀ (d : Yaml) (bdir : String) (env : SessionEnv), wellFormed d = true →
      ∃ b, (backup_config ENABLE_SESSION_LOGGING d bdir env).1 = Except.ok b) ∧
    (∀ (ds : List Yaml) (bdir : String) (envs : Nat → SessionEnv),
      (∀ d ∈ ds, wellFormed d = true) →
      (mainLoop ENABLE_SESSION_LOGGING bdir envs ds).1 = Except.ok ()) :=
  ⟨fun d bdir env h herr => backup_config_errEnv _ d bdir env h herr,
   fun d bdir env h => backup_config_isOk _ d bdir env h,
   fun ds bdir envs h => (mainLoop_wf _ bdir ds envs h).1⟩

/-- C1 witness: a well-formed device whose `enable()` raises yields the
failed outcome `False` without raising, and a one-device loop completes. -/
theorem claim1_witness :
    (backup_config ENABLE_SESSION_LOGGING devSecret "backups" envEnableFail).1 =
      Except.ok false ∧
    (∃ b, (backup_config ENABLE_SESSION_LOGGING devSecret "backups" envEnableFail).1 =
      Except.ok b) ∧
    (mainLoop ENABLE_SESSION_LOGGING "backups" envs0 [devSecret]).1 = Except.ok () :=
  ⟨claim1_amended_no_propagation.1 devSecret "backups" envEnableFail rfl
     (Or.inr (Or.inl rfl)),
   claim1_amended_no_propagation.2.1 devSecret "backups" envEnableFail rfl,
   claim1_amended_no_propagation.2.2 [devSecret] "backups" envs0
     (by intro d hd; rw [List.mem_singleton] at hd; subst hd; rfl)⟩

/-- The parameter set `backup_config` hands to `ConnectHandler` for
`devSecret` under the all-succeeding environment. -/
def paramsCex : List (String × Yaml) :=
  [("host", .str "10.0.0.1"), ("username", .str "admin"), ("password", .str "pw"),
   ("device_type", .str "cisco_ios"),
   ("session_log", .str "debug_logs/sessions/r1-20240102-030405_session.log")]

/-- C2 counterexample: `devSecret` carries a `secret` value, yet the
parameter set passed to the connect call contains no `secret` entry (the
source comments that line out), refuting the claim that the secret is
included whenever the record has one. -/
theorem claim2_counterexample :
    yamlIndex devSecret "secret" = Except.ok (.str "enablepw") ∧
    connectParamsOf (backup_config ENABLE_SESSION_LOGGING devSecret "backups" env0).2 =
      some paramsCex ∧
    paramsCex.lookup "secret" = none := by
  exact ⟨rfl, rfl, rfl⟩

/-- C2 (amended): for every record carrying the mandatory keys, the
parameter set passed to the connect call contains exactly `host`,
`username`, `password`, `device_type` and — diagnostics being enabled — the
transcript sink path under `session_log`; it never contains the display
name, and never the `secret`, even when the record has one. -/
theorem claim2_amended_params (d : Yaml) (bdir : String) (env : SessionEnv)
    (nm hv uv pv dv : Yaml)
    (hn : yamlIndex d "name" = .ok nm) (hh : yamlIndex d "host" = .ok hv)
    (hu : yamlIndex d "username" = .ok uv) (hp : yamlIndex d "password" = .ok pv)
    (hd : yamlIndex d "device_type" = .ok dv) :
    connectParamsOf (backup_config ENABLE_SESSION_LOGGING d bdir env).2 =
      some [("host", hv), ("username", uv), ("password", pv), ("device_type", dv),
            ("session_log", .str (pathJoin "debug_logs/sessions"
              (pyStr nm ++ "-" ++ formatTimestamp env.sessionTime ++ "_session.log")))] ∧
    ∀ ps, connectParamsOf (backup_config ENABLE_SESSION_LOGGING d bdir env).2 = some ps →
      ps.lookup "name" = none ∧ ps.lookup "secret" = none := by
  have h1 : connectParamsOf (backup_config ENABLE_SESSION_LOGGING d bdir env).2 =
      some [("host", hv), ("username", uv), ("password", pv), ("device_type", dv),
            ("session_log", .str (pathJoin "debug_logs/sessions"
              (pyStr nm ++ "-" ++ formatTimestamp env.sessionTime ++ "_session.log")))] := by
    rcases hc : env.connect with _ | e1 <;>
      rcases he : env.enable with _ | e2 <;>
      rcases hs : env.send with e3 | cfg <;>
      rcases hw : env.write with _ | e4 <;>
      simp [backup_config, sessionLogPath, buildParams, runTry, connectParamsOf,
            ENABLE_SESSION_LOGGING, hn, hh, hu, hp, hd, hc, he, hs, hw]
  refine ⟨h1, fun ps hps => ?_⟩
  rw [h1] at hps
  injection hps with hps
  subst hps
  exact ⟨rfl, rfl⟩

/-- C2 witness: the concrete record `devSecret`. -/
theorem claim2_witness :
    connectParamsOf (backup_config ENABLE_SESSION_LOGGING devSecret "backups" env0).2 =
      some [("host", .str "10.0.0.1"), ("username", .str "admin"),
            ("password", .str "pw"), ("device_type", .str "cisco_ios"),
            ("session_log", .str (pathJoin "debug_logs/sessions"
              (pyStr (.str "r1") ++ "-" ++ formatTimestamp env0.sessionTime ++ "_session.log")))] ∧
    ∀ ps, connectParamsOf (backup_config ENABLE_SESSION_LOGGING devSecret "backups" env0).2 =
        some ps → ps.lookup "name" = none ∧ ps.lookup "secret" = none :=
  claim2_amended_params devSecret "backups" env0 (.str "r1") (.str "10.0.0.1")
    (.str "admin") (.str "pw") (.str "cisco_ios") rfl rfl rfl rfl rfl

/-- C3 counterexample: for `devSecret` with a successful connect and a
raising `enable()`, the attempt returns `False` and its trace holds no
`commandSent` and no `fileWritten` event — the configuration command is not
issued and no artifact is written, refuting the claim that the backup
continues past an elevation failure. -/
theorem claim3_counterexample :
    envEnableFail.connect = none ∧
    (backup_config ENABLE_SESSION_LOGGING devSecret "backups" envEnableFail).1 =
      Except.ok false ∧
    (backup_config ENABLE_SESSION_LOGGING devSecret "backups" envEnableFail).2 =
      [.connectAttempt paramsCex, .enableAttempt, .sessionClosed] := by
  exact ⟨rfl, rfl, rfl⟩

/-- C3 (amended): when the connection succeeds but privilege elevation
raises, the failure is caught at the attempt boundary and the attempt is
recorded as failed — the configuration command is never issued, no artifact
is written, the session is still closed, and no exception propagates (so
the batch continues with the next device). -/
theorem claim3_amended_enable_failure (d : Yaml) (bdir : String)
    (env : SessionEnv) (e : PyExc) (hwf : wellFormed d = true)
    (hc : env.connect = none) (he : env.enable = some e) :
    (backup_config ENABLE_SESSION_LOGGING d bdir env).1 = Except.ok false ∧
    (∀ ev ∈ (backup_config ENABLE_SESSION_LOGGING d bdir env).2,
      (∀ c, ev ≠ .commandSent c) ∧ ∀ p c, ev ≠ .fileWritten p c) ∧
    Event.sessionClosed ∈ (backup_config ENABLE_SESSION_LOGGING d bdir env).2 := by
  obtain ⟨⟨nv, hn⟩, ⟨hv, hh⟩, ⟨uv, hu⟩, ⟨pv, hp⟩, ⟨dv, hd⟩⟩ := wellFormed_keys hwf
  have htr : backup_config ENABLE_SESSION_LOGGING d bdir env =
      (Except.ok false,
       [.connectAttempt [("host", hv), ("username", uv), ("password", pv),
          ("device_type", dv),
          ("session_log", .str (pathJoin "debug_logs/sessions"
            (pyStr nv ++ "-" ++ formatTimestamp env.sessionTime ++ "_session.log")))],
        .enableAttempt, .sessionClosed]) := by
    simp [backup_config, sessionLogPath, buildParams, runTry, ENABLE_SESSION_LOGGING,
          hn, hh, hu, hp, hd, hc, he]
  rw [htr]
  refine ⟨rfl, ?_, by simp⟩
  intro ev hev
  simp only [List.mem_cons, List.not_mem_nil, or_false] at hev
  rcases hev with h | h | h <;> subst h <;> exact ⟨fun c => by simp, fun p c => by simp⟩

/-- C3 witness: the concrete record `devSecret` under `envEnableFail`. -/
theorem claim3_witness :
    (backup_config ENABLE_SESSION_LOGGING devSecret "backups" envEnableFail).1 =
      Except.ok false ∧
    (∀ ev ∈ (backup_config ENABLE_SESSION_LOGGING devSecret "backups" envEnableFail).2,
      (∀ c, ev ≠ .commandSent c) ∧ ∀ p c, ev ≠ .fileWritten p c) ∧
    Event.sessionClosed ∈ (backup_config ENABLE_SESSION_LOGGING devSecret "backups" envEnableFail).2 :=
  claim3_amended_enable_failure devSecret "backups" envEnableFail (.otherError "enable")
    rfl rfl rfl

/-- C7: on a successful attempt the artifact path is exactly
`{backup_dir}/{name}-{timestamp}.config` with the timestamp rendered by
`strftime("%Y%m%d-%H%M%S")`; the path is a function of the backup
directory, device name and timestamp only, and two successful backups of
the same device at different timestamps never collide. -/
theorem claim7_artifact_naming (d : Yaml) (bdir nm : String) (env : SessionEnv)
    (cfg : String) (hwf : wellFormed d = true)
    (hn : yamlIndex d "name" = .ok (.str nm))
    (hc : env.connect = none) (he : env.enable = none) (hs : env.send = .ok cfg)
    (hwr : env.write = none) (hb1 : bdir ≠ "")
    (hb2 : endsWithSlash bdir = false) (hnm : isAbs nm = false) :
    (backup_config ENABLE_SESSION_LOGGING d bdir env).1 = Except.ok true ∧
    Event.fileWritten (bdir ++ "/" ++ (nm ++ "-" ++ formatTimestamp env.backupTime ++ ".config"))
      cfg ∈ (backup_config ENABLE_SESSION_LOGGING d bdir env).2 ∧
    (∀ t1 t2 : DateTime, validTime t1 → validTime t2 → t1 ≠ t2 →
      backupFilePath bdir nm t1 ≠ backupFilePath bdir nm t2) := by
  obtain ⟨-, ⟨hv, hh⟩, ⟨uv, hu⟩, ⟨pv, hp⟩, ⟨dv, hd⟩⟩ := wellFormed_keys hwf
  have hpj : backupFilePath bdir nm env.backupTime =
      bdir ++ "/" ++ (nm ++ "-" ++ formatTimestamp env.backupTime ++ ".config") := by
    unfold backupFilePath pathJoin
    rw [configName_not_abs nm hnm]
    simp [hb1, hb2, String.append_assoc]
  refine ⟨?_, ?_, fun t1 t2 h1 h2 hne => backupFilePath_ne bdir nm hb1 hb2 hnm h1 h2 hne⟩ <;>
    simp [backup_config, sessionLogPath, buildParams, runTry, ENABLE_SESSION_LOGGING,
          hn, hh, hu, hp, hd, hc, he, hs, hwr, pyStr, ← hpj]

/-- C7 witness: the concrete record `devSecret` in directory `backups`. -/
theorem claim7_witness :
    (backup_config ENABLE_SESSION_LOGGING devSecret "backups" env0).1 = Except.ok true ∧
    Event.fileWritten ("backups" ++ "/" ++ ("r1" ++ "-" ++ formatTimestamp env0.backupTime ++ ".config"))
      "interface Gi0/1" ∈ (backup_config ENABLE_SESSION_LOGGING devSecret "backups" env0).2 ∧
    (∀ t1 t2 : DateTime, validTime t1 → validTime t2 → t1 ≠ t2 →
      backupFilePath "backups" "r1" t1 ≠ backupFilePath "backups" "r1" t2) :=
  claim7_artifact_naming devSecret "backups" "r1" env0 "interface Gi0/1"
    rfl rfl rfl rfl rfl rfl (by decide) rfl rfl

/-- C8 counterexample: the probe's process invocation is
`["ping", "-c", "1", host]` with no `timeout` keyword and no deadline flag —
no hard timeout bounds the invocation, refuting that part of the claim. -/
theorem claim8_counterexample :
    (pingCall "192.0.2.1").timeLimit = none ∧
    (pingCall "192.0.2.1").argv = ["ping", "-c", "1", "192.0.2.1"] ∧
    (pingCall "192.0.2.1").argv.contains "-W" = false ∧
    (pingCall "192.0.2.1").argv.contains "-w" = false := by
  exact ⟨rfl, rfl, rfl, rfl⟩

/-- C8 (amended): `probe(host)` performs a single external ICMP echo
invocation bounded to one packet but with no explicit timeout, and returns
`True` exactly when the invocation exits with status zero — every non-zero
exit status and every process error yields `False`. -/
theorem claim8_amended_probe (host : String) (r : RunOutcome) :
    (ping_host host r = true ↔ r = .exits 0) ∧
    (pingCall host).argv = ["ping", "-c", "1", host] ∧
    (pingCall host).timeLimit = none := by
  refine ⟨?_, rfl, rfl⟩
  cases r with
  | exits n => cases n <;> simp [ping_host, subprocessRun, pingCall]
  | procError => simp [ping_host, subprocessRun]

/-- C9 counterexample: the prober's CLI declares no positional argument at
all and marks `-f`/`--file` as required (not optional), and an invocation
with neither hosts nor a file is an argument-parsing failure — refuting the
claimed zero-or-more positional hosts, optional file flag, and loopback
default. -/
theorem claim9_counterexample :
    pingCli.filter isPositional = [] ∧
    (pingCli.find? fun a => a.flags.contains "--file").map ArgSpec.required = some true ∧
    parseFails pingCli [] = true := by
  exact ⟨rfl, rfl, rfl⟩

/-- C9 (amended): the prober's CLI accepts no positional host arguments
and requires `-f`/`--file`; any invocation naming neither spelling of the
file option — in particular an empty command line — fails argument parsing,
so nothing (and in particular no loopback address) is probed. -/
theorem claim9_amended_cli (argv : List String)
    (h1 : argv.contains "-f" = false) (h2 : argv.contains "--file" = false) :
    parseFails pingCli argv = true ∧ pingCli.filter isPositional = [] := by
  refine ⟨?_, rfl⟩
  have g1 : "-f" ∉ argv := by simpa using h1
  have g2 : "--file" ∉ argv := by simpa using h2
  simp [parseFails, pingCli, g1, g2]

/-- C9 witness: the empty command line. -/
theorem claim9_witness :
    parseFails pingCli [] = true ∧ pingCli.filter isPositional = [] :=
  claim9_amended_cli [] rfl rfl
